import Mathlib

/-!
Shallow embedding of src/index.js (voiceflow-community/voice-call-timer),
a call-duration enforcement relay.  JavaScript values flowing through the
JSON request bodies are modelled by JSValue.  The three module-level Maps
of the source (activeCalls, members, timers) are association lists keyed
by JSValue.  A setTimeout handle is modelled by a numbered PendingTimer
record kept in a liveTimers pool inside the server state; clearTimeout
removes a handle from that pool by its number.  The asynchronous Twilio
call-control request of endCall is modelled by a Boolean outcome
parameter (true = the awaited update resolves, false = it rejects) and an
Option OutboundRequest describing the attempted side effect.
-/

/-- A JSON-ish JavaScript value as it appears in request bodies: absent
field (undefined), null, string, number, or boolean. -/
inductive JSValue where
  | undef
  | null
  | str (s : String)
  | num (n : Int)
  | boolean (b : Bool)
deriving DecidableEq

/-- JavaScript truthiness for the modelled values: undefined, null, the
empty string, 0 and false are falsy; everything else is truthy. -/
def jsTruthy : JSValue → Bool
  | .undef => false
  | .null => false
  | .str s => s != ""
  | .num n => n != 0
  | .boolean b => b

/-- src/index.js line 17: const DEFAULT_TIME_LIMIT = 2 * 60 * 1000. -/
def DEFAULT_TIME_LIMIT : Nat := 2 * 60 * 1000

/-- src/index.js lines 20-30, obfuscatePhone: falsy or non-string input
gives "unknown"; a string of length at least 5 keeps everything but the
last 5 characters and appends "xxxxx"; shorter strings give "xxxxx".
Note the falsy check fires before the length check, so the empty string
gives "unknown". -/
def obfuscatePhone (v : JSValue) : String :=
  match v with
  | .str s =>
      if s = "" then "unknown"
      else if 5 ≤ s.length then String.mk (s.data.take (s.data.length - 5)) ++ "xxxxx"
      else "xxxxx"
  | _ => "unknown"

/-- Decimal value of a digit list, as parseInt(str, 10) computes it on an
all-digit string. -/
def digitsVal (ds : List Char) : Nat :=
  ds.foldl (fun n c => n * 10 + (c.toNat - 48)) 0

/-- The regex match of src/index.js line 36: durationStr.match of the
pattern caret (backslash d plus) ([sm]) dollar.  It succeeds exactly when
the whole string is one or more decimal digits followed by a final unit
character among 's' and 'm', returning the digit value and the unit. -/
def durationMatch (s : String) : Option (Nat × Char) :=
  match s.data.getLast? with
  | none => none
  | some u =>
      let ds := s.data.dropLast
      if (u = 's' ∨ u = 'm') ∧ ds ≠ [] ∧ ds.all Char.isDigit then
        some (digitsVal ds, u)
      else none

/-- src/index.js lines 36-45 restricted to a string argument: the regex
match, then unit dispatch ('s' scales by 1000, 'm' by 60 * 1000), default
on no match. -/
def parseDurationStr (s : String) : Nat :=
  match durationMatch s with
  | none => DEFAULT_TIME_LIMIT
  | some (v, u) =>
      if u = 's' then v * 1000
      else if u = 'm' then v * 60 * 1000
      else DEFAULT_TIME_LIMIT

/-- The one runtime error the embedding needs: calling a string method on
a non-string receiver. -/
inductive JSError where
  | typeError
deriving DecidableEq

/-- src/index.js lines 33-46, parseDuration over a JavaScript value: a
falsy argument returns the default before anything else; a truthy string
is matched against the duration regex; a truthy non-string has no .match
method, so the call raises a TypeError. -/
def parseDuration (v : JSValue) : Except JSError Nat :=
  if jsTruthy v then
    match v with
    | .str s => .ok (parseDurationStr s)
    | _ => .error .typeError
  else
    .ok DEFAULT_TIME_LIMIT

/-- The webhook payload metadata record; callSid is the field the source
destructures from it, extra stands for the rest of the payload record. -/
structure Metadata where
  callSid : String
  extra : String
deriving DecidableEq

/-- An activeCalls entry (src/index.js lines 134-138). -/
structure ActiveCall where
  callSid : String
  startTime : Nat
  metadata : Metadata
deriving DecidableEq

/-- A members entry (src/index.js lines 60-65). -/
structure MemberConfig where
  timeLimit : Nat
  endMessage : JSValue
deriving DecidableEq

/-- A scheduled setTimeout handle: its number, the userID and callSid the
callback closure captured, and the delay it was armed with. -/
structure PendingTimer where
  id : Nat
  userID : JSValue
  callSid : String
  delay : Nat
deriving DecidableEq

/-- Lookup in a JavaScript Map modelled as an association list. -/
def mapLookup {α : Type} (m : List (JSValue × α)) (k : JSValue) : Option α :=
  match m with
  | [] => none
  | (k₀, v₀) :: rest => if k₀ = k then some v₀ else mapLookup rest k

/-- Map.has. -/
def mapContains {α : Type} (m : List (JSValue × α)) (k : JSValue) : Bool :=
  (mapLookup m k).isSome

/-- Map.set: overwrite the entry for the key, or append a fresh one. -/
def mapSet {α : Type} (m : List (JSValue × α)) (k : JSValue) (v : α) :
    List (JSValue × α) :=
  match m with
  | [] => [(k, v)]
  | (k₀, v₀) :: rest =>
      if k₀ = k then (k, v) :: rest else (k₀, v₀) :: mapSet rest k v

/-- Map.delete.  A JavaScript Map holds each key at most once, so
removing every occurrence from the association list is the same
operation on lists that represent a Map. -/
def mapDelete {α : Type} (m : List (JSValue × α)) (k : JSValue) :
    List (JSValue × α) :=
  match m with
  | [] => []
  | (k₀, v₀) :: rest =>
      if k₀ = k then mapDelete rest k else (k₀, v₀) :: mapDelete rest k

/-- The whole mutable state of the service: the three Maps of
src/index.js lines 12-14, plus the pool of scheduled-and-not-yet-cleared
setTimeout handles and a fresh-handle counter. -/
structure ServerState where
  activeCalls : List (JSValue × ActiveCall)
  members : List (JSValue × MemberConfig)
  timers : List (JSValue × Nat)
  liveTimers : List PendingTimer
  nextTimerId : Nat
deriving DecidableEq

/-- clearTimeout: given the result of timers.get, cancel that handle.
clearTimeout of undefined is a no-op. -/
def clearTimeout (live : List PendingTimer) (oid : Option Nat) :
    List PendingTimer :=
  match oid with
  | none => live
  | some i => live.filter (fun t => t.id != i)

/-- The parsed body of a POST /api/member request. -/
structure MemberRequest where
  userID : JSValue
  duration : JSValue
  endMessage : JSValue
deriving DecidableEq

/-- The default end message of src/index.js lines 63-64 and 209-210. -/
def defaultEndMessage : String :=
  "You have reached your time limit. The call will now end. Goodbye."

/-- src/index.js lines 49-104, the POST /api/member handler.  Returns
the new state and the HTTP status: 400 when userID is falsy, 500 when
parseDuration throws (Express turns an uncaught synchronous throw into a
500 with no handler code run), otherwise 200.  When userID is truthy the
member entry is stored; when an active call also exists, any timer
recorded in the timers Map for this userID is cleared and deleted, and a
fresh timer firing endCall with the stored callSid is armed and stored. -/
def memberHandler (st : ServerState) (req : MemberRequest) :
    ServerState × Nat :=
  if jsTruthy req.userID then
    match parseDuration req.duration with
    | .error _ => (st, 500)
    | .ok timeLimit =>
        let members₁ := mapSet st.members req.userID
          { timeLimit := timeLimit,
            endMessage :=
              if jsTruthy req.endMessage then req.endMessage
              else .str defaultEndMessage }
        match mapLookup st.activeCalls req.userID with
        | some callData =>
            let cleared :=
              if mapContains st.timers req.userID then
                (mapDelete st.timers req.userID,
                 clearTimeout st.liveTimers (mapLookup st.timers req.userID))
              else (st.timers, st.liveTimers)
            let newTimer : PendingTimer :=
              { id := st.nextTimerId, userID := req.userID,
                callSid := callData.callSid, delay := timeLimit }
            ({ activeCalls := st.activeCalls,
               members := members₁,
               timers := mapSet cleared.fst req.userID st.nextTimerId,
               liveTimers := newTimer :: cleared.snd,
               nextTimerId := st.nextTimerId + 1 }, 200)
        | none => ({ st with members := members₁ }, 200)
  else (st, 400)

/-- The envelope of a POST /api/call-webhook request: the type
discriminator and the data payload fields the handlers destructure. -/
structure CallEvent where
  type : String
  userID : JSValue
  metadata : Metadata
deriving DecidableEq

/-- src/index.js lines 120-166, handleCallStart: store the ActiveCall
entry; if no member entry exists the call is untimed; otherwise arm a
timer for the member time limit and store its handle in the timers Map.
No existing handle is cleared on this path. -/
def handleCallStart (st : ServerState) (ev : CallEvent) (now : Nat) :
    ServerState :=
  let callSid := ev.metadata.callSid
  let st₁ := { st with
    activeCalls := mapSet st.activeCalls ev.userID
      { callSid := callSid, startTime := now, metadata := ev.metadata } }
  match mapLookup st₁.members ev.userID with
  | none => st₁
  | some member =>
      let newTimer : PendingTimer :=
        { id := st₁.nextTimerId, userID := ev.userID,
          callSid := callSid, delay := member.timeLimit }
      { st₁ with
        timers := mapSet st₁.timers ev.userID st₁.nextTimerId,
        liveTimers := newTimer :: st₁.liveTimers,
        nextTimerId := st₁.nextTimerId + 1 }

/-- src/index.js lines 169-192, handleCallEnd: clear and delete any
recorded timer, delete the ActiveCall entry, delete the member entry. -/
def handleCallEnd (st : ServerState) (ev : CallEvent) : ServerState :=
  let cleared :=
    if mapContains st.timers ev.userID then
      (mapDelete st.timers ev.userID,
       clearTimeout st.liveTimers (mapLookup st.timers ev.userID))
    else (st.timers, st.liveTimers)
  { st with
    timers := cleared.fst,
    liveTimers := cleared.snd,
    activeCalls := mapDelete st.activeCalls ev.userID,
    members :=
      if mapContains st.members ev.userID then mapDelete st.members ev.userID
      else st.members }

/-- src/index.js lines 107-117, the POST /api/call-webhook handler:
route on the type discriminator, always answer 200. -/
def callWebhookHandler (st : ServerState) (ev : CallEvent) (now : Nat) :
    ServerState × Nat :=
  if ev.type = "runtime.call.start" then (handleCallStart st ev now, 200)
  else if ev.type = "runtime.call.end" then (handleCallEnd st ev, 200)
  else (st, 200)

/-- The one outbound side effect: an update of the live Twilio call,
identified by its callSid, carrying the spoken end message. -/
structure OutboundRequest where
  callSid : String
  message : JSValue
deriving DecidableEq

/-- src/index.js lines 195-243, endCall.  If no ActiveCall entry exists,
return at once with no outbound request and no state change.  Otherwise
resolve the end message (stored member entry, else the default), issue
the call-control update, and only when that awaited update resolves
(twilioOk) run the cleanup lines 235-238; when it rejects, control jumps
to the catch block, which logs and performs no state change. -/
def endCall (st : ServerState) (userID : JSValue) (callSid : String)
    (twilioOk : Bool) : ServerState × Option OutboundRequest :=
  if mapContains st.activeCalls userID then
    let endMessage :=
      match mapLookup st.members userID with
      | some m => m.endMessage
      | none => .str defaultEndMessage
    let req : OutboundRequest := { callSid := callSid, message := endMessage }
    if twilioOk then
      ({ st with
         liveTimers := clearTimeout st.liveTimers (mapLookup st.timers userID),
         timers := mapDelete st.timers userID,
         activeCalls := mapDelete st.activeCalls userID,
         members := mapDelete st.members userID }, some req)
    else (st, some req)
  else (st, none)

/-- The state at process start: all three Maps empty, no timers. -/
def emptyState : ServerState :=
  { activeCalls := [], members := [], timers := [], liveTimers := [],
    nextTimerId := 0 }

/-! Helper lemmas about the Map model. -/

theorem mapLookup_mapSet_self {α : Type} (m : List (JSValue × α))
    (k : JSValue) (v : α) : mapLookup (mapSet m k v) k = some v := by
  induction m with
  | nil => simp [mapSet, mapLookup]
  | cons p rest ih =>
      obtain ⟨k₀, v₀⟩ := p
      by_cases h : k₀ = k <;> simp [mapSet, mapLookup, h, ih]

theorem mapLookup_mapDelete_self {α : Type} (m : List (JSValue × α))
    (k : JSValue) : mapLookup (mapDelete m k) k = none := by
  induction m with
  | nil => simp [mapDelete, mapLookup]
  | cons p rest ih =>
      obtain ⟨k₀, v₀⟩ := p
      by_cases h : k₀ = k <;> simp [mapDelete, mapLookup, h, ih]

theorem mapContains_mapDelete_self {α : Type} (m : List (JSValue × α))
    (k : JSValue) : mapContains (mapDelete m k) k = false := by
  simp [mapContains, mapLookup_mapDelete_self]

theorem mapLookup_eq_none_of_not_contains {α : Type}
    (m : List (JSValue × α)) (k : JSValue)
    (h : mapContains m k = false) : mapLookup m k = none := by
  cases hl : mapLookup m k with
  | none => rfl
  | some v => rw [mapContains, hl] at h; cases h

/-! Helper lemmas about the duration parser. -/

theorem parseDuration_str (s : String) :
    parseDuration (.str s) = .ok (parseDurationStr s) := by
  by_cases hs : s = ""
  · subst hs; rfl
  · simp [parseDuration, jsTruthy, hs]

theorem durationMatch_concat (s : String) (ds : List Char) (u : Char)
    (hs : s.data = ds ++ [u]) (hne : ds ≠ [])
    (hd : ds.all Char.isDigit = true) (hu : u = 's' ∨ u = 'm') :
    durationMatch s = some (digitsVal ds, u) := by
  unfold durationMatch
  rw [hs, List.getLast?_concat, List.dropLast_concat]
  simp [hne, hd, hu]

theorem durationMatch_eq_none (s : String)
    (h : ¬ ∃ ds u, ds ≠ [] ∧ ds.all Char.isDigit = true ∧
        (u = 's' ∨ u = 'm') ∧ s.data = ds ++ [u]) :
    durationMatch s = none := by
  unfold durationMatch
  cases hgl : s.data.getLast? with
  | none => rfl
  | some u =>
      have hdec : s.data.dropLast ++ [u] = s.data :=
        List.dropLast_append_getLast? u hgl
      by_cases hc : (u = 's' ∨ u = 'm') ∧ s.data.dropLast ≠ [] ∧
          s.data.dropLast.all Char.isDigit
      · exact absurd ⟨s.data.dropLast, u, hc.2.1, hc.2.2, hc.1, hdec.symm⟩ h
      · simp only [hc, if_false]

/-- C4 counterexample: the claim says DurationParser never fails even on
non-string values, but a truthy non-string such as the number 5 has no
.match method, so parseDuration raises a TypeError instead of returning a
millisecond count. -/
theorem c4_counterexample :
    parseDuration (JSValue.num 5) = .error JSError.typeError := rfl

/-- C4 amended: parseDuration is total over absent or falsy inputs and
over all strings, yielding the default 120000 ms when the input is falsy
or does not match the grammar; but a truthy non-string input raises a
TypeError. -/
theorem c4_total_except_truthy_nonstring :
    (∀ v : JSValue, jsTruthy v = false →
      parseDuration v = .ok DEFAULT_TIME_LIMIT) ∧
    (∀ s : String, parseDuration (.str s) = .ok (parseDurationStr s)) ∧
    (∀ s : String, durationMatch s = none →
      parseDuration (.str s) = .ok 120000) ∧
    (∀ v : JSValue, (∀ s : String, v ≠ .str s) → jsTruthy v = true →
      parseDuration v = .error .typeError) := by
  refine ⟨?_, parseDuration_str, ?_, ?_⟩
  · intro v hv
    simp [parseDuration, hv]
  · intro s h
    rw [parseDuration_str]
    unfold parseDurationStr
    rw [h]
    rfl
  · intro v hns hv
    cases v with
    | undef => cases hv
    | null => cases hv
    | str s => exact absurd rfl (hns s)
    | num n => simp [parseDuration, hv]
    | boolean b => simp [parseDuration, hv]

/-- C4 witness: the amended theorem applied at the absent value, at a
malformed string, and at a truthy boolean. -/
theorem c4_witness :
    parseDuration JSValue.undef = .ok DEFAULT_TIME_LIMIT ∧
    parseDuration (JSValue.str "zzz") = .ok 120000 ∧
    parseDuration (JSValue.boolean true) = .error JSError.typeError :=
  ⟨c4_total_except_truthy_nonstring.1 .undef (by decide),
   c4_total_except_truthy_nonstring.2.2.1 "zzz" (by decide),
   c4_total_except_truthy_nonstring.2.2.2 (.boolean true)
     (fun s h => JSValue.noConfusion h) (by decide)⟩

/-- C5: the duration grammar is exactly one or more decimal digits
followed by a final unit character among 's' and 'm'; digits with 's'
scale by 1000, digits with 'm' scale by 60000, everything else gives the
default 120000, and the listed concrete examples evaluate as stated. -/
theorem c5_duration_grammar :
    (∀ (s : String) (ds : List Char), ds ≠ [] → ds.all Char.isDigit = true →
      (s.data = ds ++ ['s'] →
        parseDuration (.str s) = .ok (digitsVal ds * 1000)) ∧
      (s.data = ds ++ ['m'] →
        parseDuration (.str s) = .ok (digitsVal ds * 60000))) ∧
    (∀ s : String,
      (¬ ∃ ds u, ds ≠ [] ∧ ds.all Char.isDigit = true ∧
        (u = 's' ∨ u = 'm') ∧ s.data = ds ++ [u]) →
      parseDuration (.str s) = .ok 120000) ∧
    parseDuration (.str "30s") = .ok 30000 ∧
    parseDuration (.str "5m") = .ok 300000 ∧
    parseDuration (.str "") = .ok 120000 ∧
    parseDuration (.str "10") = .ok 120000 ∧
    parseDuration (.str "5h") = .ok 120000 ∧
    parseDuration (.str "m5") = .ok 120000 := by
  refine ⟨?_, ?_, ?_, ?_, ?_, ?_, ?_, ?_⟩
  · intro s ds hne hd
    constructor
    · intro hs
      rw [parseDuration_str]
      unfold parseDurationStr
      rw [durationMatch_concat s ds 's' hs hne hd (Or.inl rfl)]
      simp
    · intro hs
      rw [parseDuration_str]
      unfold parseDurationStr
      rw [durationMatch_concat s ds 'm' hs hne hd (Or.inr rfl)]
      simp [Nat.mul_assoc]
  · intro s h
    rw [parseDuration_str]
    unfold parseDurationStr
    rw [durationMatch_eq_none s h]
    rfl
  · exact congrArg Except.ok (by decide)
  · exact congrArg Except.ok (by decide)
  · rfl
  · exact congrArg Except.ok (by decide)
  · exact congrArg Except.ok (by decide)
  · exact congrArg Except.ok (by decide)

/-- C5 witness: the grammar theorem applied at the concrete accepted
token built from the digit list of "7s". -/
theorem c5_witness :
    parseDuration (.str "7s") = .ok (digitsVal ['7'] * 1000) :=
  (c5_duration_grammar.1 "7s" ['7'] (by decide) (by decide)).1 (by decide)

/-- C6 counterexample: the claim says every string of length below 5 is
redacted to "xxxxx", but the empty string is falsy, so the falsy check of
obfuscatePhone fires first and returns "unknown". -/
theorem c6_counterexample :
    obfuscatePhone (.str "") = "unknown" ∧
    ("" : String).length < 5 ∧
    obfuscatePhone (.str "") ≠ "xxxxx" := by
  refine ⟨rfl, by decide, by decide⟩

/-- C6 amended: obfuscatePhone returns "unknown" for non-string input and
for the empty string; every nonempty string of length below 5 gives
exactly "xxxxx"; a string of length at least 5 gives all characters
except the last 5 followed by "xxxxx", so the output length equals the
input length and the last 5 output characters are "xxxxx". -/
theorem c6_redaction :
    (∀ v : JSValue, (∀ s : String, v ≠ .str s) →
      obfuscatePhone v = "unknown") ∧
    obfuscatePhone (.str "") = "unknown" ∧
    (∀ s : String, s ≠ "" → s.length < 5 → obfuscatePhone (.str s) = "xxxxx") ∧
    (∀ s : String, 5 ≤ s.length →
      (obfuscatePhone (.str s)).data =
        s.data.take (s.length - 5) ++ "xxxxx".data ∧
      (obfuscatePhone (.str s)).length = s.length ∧
      (obfuscatePhone (.str s)).data.drop (s.length - 5) = "xxxxx".data) := by
  refine ⟨?_, rfl, ?_, ?_⟩
  · intro v hns
    cases v with
    | str s => exact absurd rfl (hns s)
    | undef => rfl
    | null => rfl
    | num n => rfl
    | boolean b => rfl
  · intro s hne hlt
    have h5 : ¬ 5 ≤ s.length := Nat.not_le.mpr hlt
    simp [obfuscatePhone, hne, h5]
  · intro s h5
    have hne : s ≠ "" := by
      intro h
      rw [h] at h5
      exact absurd h5 (by decide)
    have hdata : (obfuscatePhone (.str s)).data =
        s.data.take (s.length - 5) ++ "xxxxx".data := by
      simp only [obfuscatePhone, hne, if_false, h5, if_true]
      rw [String.data_append]
      rfl
    have htake : (s.data.take (s.length - 5)).length = s.length - 5 := by
      rw [List.length_take]
      exact Nat.min_eq_left (Nat.sub_le _ _)
    refine ⟨hdata, ?_, ?_⟩
    · show (obfuscatePhone (.str s)).data.length = s.length
      rw [hdata, List.length_append, htake]
      have : "xxxxx".data.length = 5 := rfl
      rw [this]
      exact Nat.sub_add_cancel h5
    · rw [hdata]
      calc (s.data.take (s.length - 5) ++ "xxxxx".data).drop (s.length - 5)
          = (s.data.take (s.length - 5) ++ "xxxxx".data).drop
              (s.data.take (s.length - 5)).length := by rw [htake]
        _ = "xxxxx".data := List.drop_left _ _

/-- C6 witness: the amended theorem applied at a non-string value, a
short nonempty string, and a 7-character string. -/
theorem c6_witness :
    obfuscatePhone JSValue.null = "unknown" ∧
    obfuscatePhone (.str "abc") = "xxxxx" ∧
    (obfuscatePhone (.str "1234567")).data =
      "1234567".data.take ("1234567".length - 5) ++ "xxxxx".data :=
  ⟨c6_redaction.1 .null (fun s h => JSValue.noConfusion h),
   c6_redaction.2.2.1 "abc" (by decide) (by decide),
   (c6_redaction.2.2.2 "1234567" (by decide)).1⟩

/-- On an accepted registration the members Map always becomes mapSet of
the old one with the freshly built config, in both the active-call and
no-active-call branches of the handler. -/
theorem memberHandler_members_set (st : ServerState) (req : MemberRequest)
    (t : Nat) (hu : jsTruthy req.userID = true)
    (hp : parseDuration req.duration = .ok t) :
    (memberHandler st req).fst.members =
      mapSet st.members req.userID
        { timeLimit := t,
          endMessage :=
            if jsTruthy req.endMessage then req.endMessage
            else .str defaultEndMessage } := by
  unfold memberHandler
  rw [hu, hp]
  cases mapLookup st.activeCalls req.userID <;> rfl

/-- C7: a registration request whose userID field is absent is answered
with status 400 and the whole server state, hence every registry and the
timer table, is returned unchanged. -/
theorem c7_missing_userID_rejected (st : ServerState) (req : MemberRequest)
    (h : req.userID = JSValue.undef) :
    memberHandler st req = (st, 400) := by
  unfold memberHandler
  rw [h]
  rfl

/-- C7 witness: the theorem applied at the empty starting state and a
request carrying duration and endMessage but no userID. -/
theorem c7_witness :
    memberHandler emptyState
      { userID := .undef, duration := .str "30s", endMessage := .str "hi" } =
      (emptyState, 400) :=
  c7_missing_userID_rejected emptyState
    { userID := .undef, duration := .str "30s", endMessage := .str "hi" } rfl

/-- C8: endCall on an identity with no ActiveCall entry returns the state
unchanged and issues no outbound request, whatever the provider outcome
would have been, and calling it a second time does exactly the same. -/
theorem c8_endCall_noop_idempotent (st : ServerState) (u : JSValue)
    (sid : String) (ok₁ ok₂ : Bool)
    (h : mapContains st.activeCalls u = false) :
    endCall st u sid ok₁ = (st, none) ∧
    endCall (endCall st u sid ok₁).fst u sid ok₂ = (st, none) := by
  have h1 : endCall st u sid ok₁ = (st, none) := by
    unfold endCall
    simp [h]
  refine ⟨h1, ?_⟩
  rw [h1]
  unfold endCall
  simp [h]

/-- C8 witness: the theorem applied at the empty state, where no call is
active for any identity. -/
theorem c8_witness :
    endCall emptyState (.str "v") "CA9" true = (emptyState, none) ∧
    endCall (endCall emptyState (.str "v") "CA9" true).fst (.str "v") "CA9"
        false = (emptyState, none) :=
  c8_endCall_noop_idempotent emptyState (.str "v") "CA9" true false (by decide)

/-- C9: on an accepted registration the stored endMessage is the supplied
value when that value is truthy and the fixed default sentence otherwise;
in particular the stored endMessage is never the empty string. -/
theorem c9_endMessage_never_empty (st : ServerState) (req : MemberRequest)
    (t : Nat) (hu : jsTruthy req.userID = true)
    (hp : parseDuration req.duration = .ok t) :
    ∃ cfg,
      mapLookup (memberHandler st req).fst.members req.userID = some cfg ∧
      (jsTruthy req.endMessage = false →
        cfg.endMessage = .str defaultEndMessage) ∧
      cfg.endMessage ≠ .str "" := by
  refine ⟨{ timeLimit := t,
            endMessage :=
              if jsTruthy req.endMessage then req.endMessage
              else .str defaultEndMessage }, ?_, ?_, ?_⟩
  · rw [memberHandler_members_set st req t hu hp, mapLookup_mapSet_self]
  · intro hem
    simp [hem]
  · by_cases hem : jsTruthy req.endMessage = true
    · simp only [hem, if_true]
      intro hcontra
      rw [hcontra] at hem
      exact absurd hem (by decide)
    · rw [Bool.not_eq_true] at hem
      simp only [hem, Bool.false_eq_true, if_false]
      intro hcontra
      have : defaultEndMessage = "" := by
        injection hcontra
      exact absurd this (by decide)

/-- C9 witness: the theorem applied at a registration that supplies the
empty string as endMessage; the stored config carries the default. -/
theorem c9_witness :
    ∃ cfg,
      mapLookup (memberHandler emptyState
          { userID := .str "u", duration := .str "30s",
            endMessage := .str "" }).fst.members (.str "u") = some cfg ∧
      (jsTruthy (JSValue.str "") = false →
        cfg.endMessage = .str defaultEndMessage) ∧
      cfg.endMessage ≠ .str "" :=
  c9_endMessage_never_empty emptyState
    { userID := .str "u", duration := .str "30s", endMessage := .str "" }
    30000 (by decide) rfl

/-- C10: the registration handler never touches the activeCalls Map: for
every state and every request body the activeCalls entries after the
handler are exactly the entries before it. -/
theorem c10_register_preserves_activeCalls (st : ServerState)
    (req : MemberRequest) :
    (memberHandler st req).fst.activeCalls = st.activeCalls := by
  unfold memberHandler
  by_cases hu : jsTruthy req.userID = true
  · rw [hu]
    cases parseDuration req.duration with
    | error e => rfl
    | ok t => cases mapLookup st.activeCalls req.userID <;> rfl
  · rw [Bool.not_eq_true] at hu
    rw [hu]
    rfl

/-- A duration token whose regex match succeeds with digit value 0, such
as "0s" or "0m"; these are the only accepted tokens that parse to 0. -/
def zeroDurationToken (v : JSValue) : Bool :=
  match v with
  | .str s =>
      match durationMatch s with
      | some (0, _) => true
      | _ => false
  | _ => false

/-- An accepted parse result is positive unless the token is a
zero-valued one. -/
theorem parseDuration_ok_pos (v : JSValue) (t : Nat)
    (hp : parseDuration v = .ok t)
    (hz : zeroDurationToken v = false) : 0 < t := by
  cases v with
  | str s =>
      rw [parseDuration_str] at hp
      have ht : parseDurationStr s = t := by
        injection hp
      subst ht
      unfold parseDurationStr
      cases hm : durationMatch s with
      | none => decide
      | some p =>
          obtain ⟨w, u⟩ := p
          simp only [zeroDurationToken, hm] at hz
          cases w with
          | zero => simp at hz
          | succ n =>
              show 0 < if u = 's' then (n + 1) * 1000
                  else if u = 'm' then (n + 1) * 60 * 1000
                  else DEFAULT_TIME_LIMIT
              by_cases hus : u = 's'
              · rw [if_pos hus]
                omega
              · rw [if_neg hus]
                by_cases hum : u = 'm'
                · rw [if_pos hum]
                  omega
                · rw [if_neg hum]
                  decide
  | undef =>
      have ht : DEFAULT_TIME_LIMIT = t := by
        injection hp
      subst ht
      decide
  | null =>
      have ht : DEFAULT_TIME_LIMIT = t := by
        injection hp
      subst ht
      decide
  | num n =>
      by_cases hn : n = 0
      · subst hn
        have ht : DEFAULT_TIME_LIMIT = t := by
          injection hp
        subst ht
        decide
      · rw [show parseDuration (.num n) = .error .typeError by
            simp [parseDuration, jsTruthy, hn]] at hp
        cases hp
  | boolean b =>
      cases b with
      | false =>
          have ht : DEFAULT_TIME_LIMIT = t := by
            injection hp
          subst ht
          decide
      | true => cases hp

/-- C3 counterexample: the registration with duration token "0s" is
accepted (userID present) and stores timeLimitMillis 0, which is not
strictly positive as the claim requires. -/
theorem c3_counterexample :
    mapLookup (memberHandler emptyState
        { userID := .str "u", duration := .str "0s",
          endMessage := .undef }).fst.members (.str "u") =
      some { timeLimit := 0, endMessage := .str defaultEndMessage } := by
  decide

/-- C3 amended: for every accepted registration whose duration token is
not a zero-valued accepted token (all digits 0 followed by the unit), the
stored timeLimitMillis is a strictly positive integer; a zero-valued
token such as "0s" stores 0. -/
theorem c3_timeLimit_positive_unless_zero (st : ServerState)
    (req : MemberRequest) (t : Nat)
    (hu : jsTruthy req.userID = true)
    (hp : parseDuration req.duration = .ok t)
    (hz : zeroDurationToken req.duration = false) :
    0 < t ∧
    (mapLookup (memberHandler st req).fst.members req.userID).map
      (fun c => c.timeLimit) = some t := by
  refine ⟨parseDuration_ok_pos req.duration t hp hz, ?_⟩
  rw [memberHandler_members_set st req t hu hp, mapLookup_mapSet_self]
  rfl

/-- C3 witness: the amended theorem applied at a registration carrying
the token "45s", which stores 45000. -/
theorem c3_witness :
    0 < 45000 ∧
    (mapLookup (memberHandler emptyState
        { userID := .str "u", duration := .str "45s",
          endMessage := .undef }).fst.members (.str "u")).map
      (fun c => c.timeLimit) = some 45000 :=
  c3_timeLimit_positive_unless_zero emptyState
    { userID := .str "u", duration := .str "45s", endMessage := .undef }
    45000 (by decide) rfl (by decide)

/-- A concrete reachable-shaped state with one active call, one member
entry and one armed timer for identity "u". -/
def c1State : ServerState :=
  { activeCalls := [(.str "u",
      { callSid := "CA1", startTime := 0,
        metadata := { callSid := "CA1", extra := "" } })],
    members := [(.str "u", { timeLimit := 1000, endMessage := .str "bye" })],
    timers := [(.str "u", 0)],
    liveTimers := [{ id := 0, userID := .str "u", callSid := "CA1",
                     delay := 1000 }],
    nextTimerId := 1 }

/-- C1 counterexample: with an ActiveCall entry present, endCall whose
outbound Twilio update rejects leaves the whole state, and in particular
the MemberConfig, ActiveCall and PendingTimer entries, untouched: the
cleanup lines sit after the await inside the try block, so a failure
jumps to the catch block and no local state is released. -/
theorem c1_counterexample :
    mapContains c1State.activeCalls (.str "u") = true ∧
    (endCall c1State (.str "u") "CA1" false).fst = c1State ∧
    mapContains (endCall c1State (.str "u") "CA1" false).fst.members
      (.str "u") = true := by
  refine ⟨by decide, by decide, by decide⟩

/-- C1 amended: for an identity with an ActiveCall entry, endCall removes
the PendingTimer, the ActiveCall entry and the MemberConfig entry exactly
when the outbound call-control request succeeds; when the request fails,
the error is caught and logged and the local state is returned
unchanged, so cleanup is conditional on provider success. -/
theorem c1_cleanup_only_on_success (st : ServerState) (u : JSValue)
    (sid : String) (h : mapContains st.activeCalls u = true) :
    mapContains (endCall st u sid true).fst.activeCalls u = false ∧
    mapContains (endCall st u sid true).fst.members u = false ∧
    mapContains (endCall st u sid true).fst.timers u = false ∧
    (endCall st u sid false).fst = st := by
  unfold endCall
  simp [h, mapContains_mapDelete_self]

/-- C1 witness: the amended theorem applied at the concrete state with an
active call for "u". -/
theorem c1_witness :
    mapContains (endCall c1State (.str "u") "CA1" true).fst.activeCalls
      (.str "u") = false ∧
    mapContains (endCall c1State (.str "u") "CA1" true).fst.members
      (.str "u") = false ∧
    mapContains (endCall c1State (.str "u") "CA1" true).fst.timers
      (.str "u") = false ∧
    (endCall c1State (.str "u") "CA1" false).fst = c1State :=
  c1_cleanup_only_on_success c1State (.str "u") "CA1" (by decide)

/-- The state after registering identity "u" with token "30s" starting
from the empty state. -/
def c2RegState : ServerState :=
  (memberHandler emptyState
    { userID := .str "u", duration := .str "30s",
      endMessage := .undef }).fst

/-- First call-start webhook event for "u". -/
def c2StartEvent1 : CallEvent :=
  { type := "runtime.call.start", userID := .str "u",
    metadata := { callSid := "CA1", extra := "" } }

/-- Second call-start webhook event for "u", a new physical call. -/
def c2StartEvent2 : CallEvent :=
  { type := "runtime.call.start", userID := .str "u",
    metadata := { callSid := "CA2", extra := "" } }

/-- The reachable state after register "u", call-start CA1, call-start
CA2: the second call-start overwrote the timers Map entry without
clearing the first setTimeout handle. -/
def c2FinalState : ServerState :=
  (callWebhookHandler
    (callWebhookHandler c2RegState c2StartEvent1 100).fst
    c2StartEvent2 200).fst

/-- C2 counterexample: in the reachable state built by a registration
followed by two call-start events for the same identity, two live
PendingTimers for that identity coexist, because handleCallStart stores a
new setTimeout handle without cancelling the existing one; the
at-most-one-live-timer claim fails and so does the claim that every
arming operation cancels first. -/
theorem c2_counterexample :
    (c2FinalState.liveTimers.filter
      (fun t => t.userID == JSValue.str "u")).length = 2 := by
  decide

/-- C2 amended: registration when a call is active does cancel the
handle recorded in the timers Map before arming and storing a new timer
(its resulting pool is the new timer consed onto clearTimeout of the old
pool); but call-start arms and stores a new timer without cancelling
anything (its resulting pool is the new timer consed onto the unchanged
old pool), so two live timers can coexist for one caller after
consecutive call-start events. -/
theorem c2_cancel_on_register_not_on_start :
    (∀ (st : ServerState) (req : MemberRequest) (cd : ActiveCall) (t : Nat),
      jsTruthy req.userID = true →
      parseDuration req.duration = .ok t →
      mapLookup st.activeCalls req.userID = some cd →
      (memberHandler st req).fst.liveTimers =
        { id := st.nextTimerId, userID := req.userID,
          callSid := cd.callSid, delay := t } ::
          clearTimeout st.liveTimers (mapLookup st.timers req.userID)) ∧
    (∀ (st : ServerState) (ev : CallEvent) (now : Nat) (m : MemberConfig),
      ev.type = "runtime.call.start" →
      mapLookup st.members ev.userID = some m →
      (callWebhookHandler st ev now).fst.liveTimers =
        { id := st.nextTimerId, userID := ev.userID,
          callSid := ev.metadata.callSid, delay := m.timeLimit } ::
          st.liveTimers) := by
  constructor
  · intro st req cd t hu hp hcd
    unfold memberHandler
    rw [hu, hp, hcd]
    by_cases hc : mapContains st.timers req.userID = true
    · simp [hc]
    · rw [Bool.not_eq_true] at hc
      simp [hc, mapLookup_eq_none_of_not_contains st.timers req.userID hc,
        clearTimeout]
  · intro st ev now m htype hm
    unfold callWebhookHandler
    rw [if_pos htype]
    unfold handleCallStart
    simp [hm]

/-- A concrete state with an active call, a member entry and an armed
timer for identity "w", used to instantiate the amended C2 theorem. -/
def c2ArmState : ServerState :=
  { activeCalls := [(.str "w",
      { callSid := "CA5", startTime := 7,
        metadata := { callSid := "CA5", extra := "x" } })],
    members := [(.str "w", { timeLimit := 9, endMessage := .str "bye" })],
    timers := [(.str "w", 3)],
    liveTimers := [{ id := 3, userID := .str "w", callSid := "CA5",
                     delay := 9 }],
    nextTimerId := 4 }

/-- C2 witness: both halves of the amended theorem applied at concrete
inputs over c2ArmState. -/
theorem c2_witness :
    (memberHandler c2ArmState
        { userID := .str "w", duration := .str "2s",
          endMessage := .undef }).fst.liveTimers =
      { id := 4, userID := .str "w", callSid := "CA5", delay := 2000 } ::
        clearTimeout c2ArmState.liveTimers
          (mapLookup c2ArmState.timers (.str "w")) ∧
    (callWebhookHandler c2ArmState
        { type := "runtime.call.start", userID := .str "w",
          metadata := { callSid := "CA6", extra := "" } } 50).fst.liveTimers =
      { id := 4, userID := .str "w", callSid := "CA6", delay := 9 } ::
        c2ArmState.liveTimers :=
  ⟨c2_cancel_on_register_not_on_start.1 c2ArmState
      { userID := .str "w", duration := .str "2s", endMessage := .undef }
      { callSid := "CA5", startTime := 7,
        metadata := { callSid := "CA5", extra := "x" } } 2000
      (by decide) rfl (by decide),
   c2_cancel_on_register_not_on_start.2 c2ArmState
      { type := "runtime.call.start", userID := .str "w",
        metadata := { callSid := "CA6", extra := "" } } 50
      { timeLimit := 9, endMessage := .str "bye" } rfl (by decide)⟩
